import Mathlib

/-!
Shallow embedding of the LemonNet native wrapper
(src/LemonNet.Native/lemon_wrapper.cpp) and of the spec-level behaviour of the
vendored LEMON algorithms it delegates to.

Modelling conventions:
* A C handle (`LemonGraph`, `LemonArcMap`, `LemonNodeMap`) is an `Option` of the
  wrapped state; `none` is the NULL handle.
* `SmartDigraph` nodes and arcs are created by the wrapper in creation order and
  stored in the `nodes` / `arcs` vectors; the handles are pairwise distinct, so a
  node handle is represented by its index in `nodes` and an arc handle by its
  index in `arcs`.  An arc stores its endpoint node indices, exactly the data
  `SmartDigraph` holds for it.
* C `int` / `long long` become `Int`; C `double` becomes `ℚ` (exact arithmetic in
  place of IEEE 754; the wrapper only adds and compares lengths).
* The IEEE `+infinity` stored in `ShortestPathResult.distance` for unreached
  targets is represented by `none`.
* `malloc` is assumed to succeed; the out-parameter pairs
  `(FlowResult**, int*)` and `PathResult*` become `Option (List _)` values, with
  `none` for a NULL pointer.
-/

namespace LemonNet

/-- State of a `GraphWrapper`: the number of nodes created so far and the list of
arcs in creation order, each carrying (source node index, target node index). -/
structure GraphWrapper where
  nodes : Nat
  arcs : List (Nat × Nat)
deriving DecidableEq

/-- Value kind tag of an `ArcMapWrapper` (`MapType` in the C++ source). -/
inductive MapType where
  | LONG
  | DOUBLE
deriving DecidableEq

/-- State of an `ArcMapWrapper`: the kind tag plus the stored values.  The C++
union holds one live `SmartDigraph::ArcMap`; LEMON maps are observers of the
graph and grow automatically when arcs are added, with the kind's zero as
default, so the live map is a total table from arc index to value.  The map
wrapper also stores a non-owning pointer to its `GraphWrapper`; accessors read
the owning graph's live state through it, which the embedding supplies as an
explicit `GraphWrapper` argument. -/
structure ArcMapWrapper where
  type : MapType
  longVals : Nat → Int
  doubleVals : Nat → ℚ

/-- State of a `NodeMapWrapper` (always double-valued). -/
structure NodeMapWrapper where
  vals : Nat → ℚ

/-- lemon_create_graph: a fresh empty graph. -/
def lemon_create_graph : GraphWrapper :=
  { nodes := 0, arcs := [] }

/-- lemon_add_node: NULL handle gives -1; otherwise appends a node and returns
its index. -/
def lemon_add_node : Option GraphWrapper → Option GraphWrapper × Int
  | none => (none, -1)
  | some g => (some { nodes := g.nodes + 1, arcs := g.arcs }, (g.nodes : Int))

/-- lemon_add_arc: NULL handle gives -1; endpoint ids are bounds-checked against
the current node count before any mutation; on success the arc is appended and
its index returned. -/
def lemon_add_arc : Option GraphWrapper → Int → Int → Option GraphWrapper × Int
  | none, _, _ => (none, -1)
  | some g, s, t =>
    if s < 0 ∨ (g.nodes : Int) ≤ s ∨ t < 0 ∨ (g.nodes : Int) ≤ t then (some g, -1)
    else (some { nodes := g.nodes, arcs := g.arcs ++ [(s.toNat, t.toNat)] },
          (g.arcs.length : Int))

/-- Linear search loop `for (i = 0; i < n; ++i) if (nodes[i] == handle) return i;
return -1;` of `lemon_arc_source` / `lemon_arc_target`, with the handle at index
`tgt` (node handles are pairwise distinct).  `i` is the loop counter, the second
argument the number of iterations left. -/
def scanFind (tgt : Nat) : Nat → Nat → Int
  | _, 0 => -1
  | i, rem + 1 => if i = tgt then (i : Int) else scanFind tgt (i + 1) rem

/-- lemon_arc_source: NULL handle or out-of-range arc id gives -1; otherwise the
arc's source handle is looked up in the node vector by linear search. -/
def lemon_arc_source : Option GraphWrapper → Int → Int
  | none, _ => -1
  | some g, arcId =>
    if arcId < 0 ∨ (g.arcs.length : Int) ≤ arcId then -1
    else scanFind (g.arcs.getD arcId.toNat (0, 0)).1 0 g.nodes

/-- lemon_arc_target: as `lemon_arc_source` for the target endpoint. -/
def lemon_arc_target : Option GraphWrapper → Int → Int
  | none, _ => -1
  | some g, arcId =>
    if arcId < 0 ∨ (g.arcs.length : Int) ≤ arcId then -1
    else scanFind (g.arcs.getD arcId.toNat (0, 0)).2 0 g.nodes

/-- lemon_node_count: NULL handle gives 0. -/
def lemon_node_count : Option GraphWrapper → Int
  | none => 0
  | some g => (g.nodes : Int)

/-- lemon_arc_count: NULL handle gives 0. -/
def lemon_arc_count : Option GraphWrapper → Int
  | none => 0
  | some g => (g.arcs.length : Int)

/-- lemon_create_arc_map_long: NULL graph gives NULL; otherwise a LONG-kind map
zero-initialised on every arc. -/
def lemon_create_arc_map_long : Option GraphWrapper → Option ArcMapWrapper
  | none => none
  | some _ => some { type := MapType.LONG, longVals := fun _ => 0, doubleVals := fun _ => 0 }

/-- lemon_create_arc_map_double: NULL graph gives NULL; otherwise a DOUBLE-kind
map zero-initialised on every arc. -/
def lemon_create_arc_map_double : Option GraphWrapper → Option ArcMapWrapper
  | none => none
  | some _ => some { type := MapType.DOUBLE, longVals := fun _ => 0, doubleVals := fun _ => 0 }

/-- lemon_create_node_map_double: NULL graph gives NULL; otherwise a
zero-initialised node map. -/
def lemon_create_node_map_double : Option GraphWrapper → Option NodeMapWrapper
  | none => none
  | some _ => some { vals := fun _ => 0 }

/-- lemon_set_arc_value_long: NULL map or kind mismatch or arc id outside the
owning graph's current arc range is a silent no-op; otherwise the value is
stored.  `g` is the live state of the owning graph the wrapper dereferences. -/
def lemon_set_arc_value_long (g : GraphWrapper) (m : Option ArcMapWrapper)
    (arc : Int) (v : Int) : Option ArcMapWrapper :=
  match m with
  | none => none
  | some w =>
    if w.type ≠ MapType.LONG then some w
    else if arc < 0 ∨ (g.arcs.length : Int) ≤ arc then some w
    else some { w with longVals := fun j => if j = arc.toNat then v else w.longVals j }

/-- lemon_get_arc_value_long: NULL map, kind mismatch, or arc id outside the
owning graph's current arc range gives 0. -/
def lemon_get_arc_value_long (g : GraphWrapper) (m : Option ArcMapWrapper)
    (arc : Int) : Int :=
  match m with
  | none => 0
  | some w =>
    if w.type ≠ MapType.LONG then 0
    else if arc < 0 ∨ (g.arcs.length : Int) ≤ arc then 0
    else w.longVals arc.toNat

/-- lemon_set_arc_value_double: double-kind analogue of
`lemon_set_arc_value_long`. -/
def lemon_set_arc_value_double (g : GraphWrapper) (m : Option ArcMapWrapper)
    (arc : Int) (v : ℚ) : Option ArcMapWrapper :=
  match m with
  | none => none
  | some w =>
    if w.type ≠ MapType.DOUBLE then some w
    else if arc < 0 ∨ (g.arcs.length : Int) ≤ arc then some w
    else some { w with doubleVals := fun j => if j = arc.toNat then v else w.doubleVals j }

/-- lemon_get_arc_value_double: double-kind analogue of
`lemon_get_arc_value_long`, returning 0.0 on any failed check. -/
def lemon_get_arc_value_double (g : GraphWrapper) (m : Option ArcMapWrapper)
    (arc : Int) : ℚ :=
  match m with
  | none => 0
  | some w =>
    if w.type ≠ MapType.DOUBLE then 0
    else if arc < 0 ∨ (g.arcs.length : Int) ≤ arc then 0
    else w.doubleVals arc.toNat

/-- lemon_set_node_value_double: NULL map or node id outside the owning graph's
current node range is a silent no-op. -/
def lemon_set_node_value_double (g : GraphWrapper) (m : Option NodeMapWrapper)
    (node : Int) (v : ℚ) : Option NodeMapWrapper :=
  match m with
  | none => none
  | some w =>
    if node < 0 ∨ (g.nodes : Int) ≤ node then some w
    else some { vals := fun j => if j = node.toNat then v else w.vals j }

/-- lemon_get_node_value_double: NULL map or out-of-range node id gives 0.0. -/
def lemon_get_node_value_double (g : GraphWrapper) (m : Option NodeMapWrapper)
    (node : Int) : ℚ :=
  match m with
  | none => 0
  | some w =>
    if node < 0 ∨ (g.nodes : Int) ≤ node then 0
    else w.vals node.toNat

/-- Arcs leaving node `u`, as (arc index, head node) pairs, in creation order. -/
def outArcs (g : GraphWrapper) (u : Nat) : List (Nat × Nat) :=
  g.arcs.enum.filterMap fun p => if p.2.1 = u then some (p.1, p.2.2) else none

/-- Residual edges leaving `u` for flow `f` under capacities `cap`: forward
along an arc with `cap i - f i > 0`, backward along an arc with `f i > 0`.
Each entry is (arc index, forward?, other endpoint). -/
def residArcs (g : GraphWrapper) (cap f : Nat → Int) (u : Nat) :
    List (Nat × Bool × Nat) :=
  (g.arcs.enum.filterMap fun p =>
    if p.2.1 = u ∧ 0 < cap p.1 - f p.1 then some (p.1, true, p.2.2) else none) ++
  (g.arcs.enum.filterMap fun p =>
    if p.2.2 = u ∧ 0 < f p.1 then some (p.1, false, p.2.1) else none)

/-- Breadth-first search in the residual graph.  The queue holds (node, reversed
path of (arc, direction) steps from the source); a node is expanded at most once
thanks to the visited list, and `fuel` bounds the number of queue pops. -/
def bfsLoop (g : GraphWrapper) (cap f : Nat → Int) (t : Nat) :
    Nat → List Nat → List (Nat × List (Nat × Bool)) → Option (List (Nat × Bool))
  | 0, _, _ => none
  | _ + 1, _, [] => none
  | fuel + 1, visited, (u, path) :: rest =>
    if u = t then some path.reverse
    else if u ∈ visited then bfsLoop g cap f t fuel visited rest
    else bfsLoop g cap f t fuel (u :: visited)
      (rest ++ (residArcs g cap f u).map fun e => (e.2.2, (e.1, e.2.1) :: path))

/-- Shortest (fewest-arcs) augmenting path from `s` to `t` in the residual
graph, or `none` when no augmenting path exists. -/
def findAugPath (g : GraphWrapper) (cap f : Nat → Int) (s t : Nat) :
    Option (List (Nat × Bool)) :=
  bfsLoop g cap f t ((g.nodes + 1) * (2 * g.arcs.length + 2)) [] [(s, [])]

/-- Residual capacity of one augmenting-path step. -/
def stepResidual (cap f : Nat → Int) (e : Nat × Bool) : Int :=
  if e.2 then cap e.1 - f e.1 else f e.1

/-- Bottleneck residual capacity of a nonempty augmenting path. -/
def bottleneck (cap f : Nat → Int) : List (Nat × Bool) → Int
  | [] => 0
  | e :: es => es.foldl (fun a e2 => min a (stepResidual cap f e2)) (stepResidual cap f e)

/-- Push `b` units of flow along an augmenting path: forward steps gain `b`,
backward steps lose `b`. -/
def augmentFlow (f : Nat → Int) (p : List (Nat × Bool)) (b : Int) : Nat → Int :=
  p.foldl (fun acc e => fun j => if j = e.1 then (if e.2 then acc j + b else acc j - b) else acc j) f

/-- Main augmenting loop: repeatedly find a shortest augmenting path and push
its bottleneck, until no augmenting path remains (or the fuel, larger than the
total capacity leaving the source, runs out). -/
def ekLoop (g : GraphWrapper) (cap : Nat → Int) (s t : Nat) :
    Nat → (Nat → Int) → (Nat → Int)
  | 0, f => f
  | fuel + 1, f =>
    match findAugPath g cap f s t with
    | none => f
    | some [] => f
    | some (e :: es) =>
      let b := bottleneck cap f (e :: es)
      if b ≤ 0 then f else ekLoop g cap s t fuel (augmentFlow f (e :: es) b)

/-- Net flow into node `t` (LEMON's `flowValue()` evaluates the flow's excess at
the target). -/
def netInflow (g : GraphWrapper) (f : Nat → Int) (t : Nat) : Int :=
  g.arcs.enum.foldl
    (fun acc p => acc + (if p.2.2 = t then f p.1 else 0) - (if p.2.1 = t then f p.1 else 0)) 0

/-- Fuel that dominates the number of augmentations: each augmentation pushes at
least one unit, and the total flow is bounded by the capacity leaving `s`. -/
def ekFuel (g : GraphWrapper) (cap : Nat → Int) : Nat :=
  (g.arcs.enum.foldl (fun acc p => acc + (max (cap p.1) 0).toNat) 0) + 1

/-- Maximum-flow computation on the wrapper graph: value and flow table. -/
def maxFlowSpec (g : GraphWrapper) (cap : Nat → Int) (s t : Nat) :
    Int × (Nat → Int) :=
  let f := ekLoop g cap s t (ekFuel g cap) (fun _ => 0)
  (netInflow g f t, f)

/-- Signature shared by the two max-flow algorithms: from graph, capacity table
and endpoint indices to (flow value, per-arc flow table). -/
def MaxFlowAlg : Type :=
  GraphWrapper → (Nat → Int) → Nat → Nat → Int × (Nat → Int)

/-- Modelled from the spec: the body of `lemon::EdmondsKarp` is a vendored LEMON
header absent from src/.  Per §4.3 the augmenting-path variant augments along
shortest residual paths until no augmenting path exists, i.e. it computes the
maximum flow value and a maximal flow; `maxFlowSpec` is that computation. -/
def edmondsKarpAlg : MaxFlowAlg := maxFlowSpec

/-- Modelled from the spec: the body of `lemon::Preflow` is a vendored LEMON
header absent from src/.  Per §4.3/§8 the push-relabel variant also computes the
maximum flow value ("Both variants must report an identical maxFlowValue"), so
its value-and-flow result is modelled by the same maximum-flow computation. -/
def preflowAlg : MaxFlowAlg := maxFlowSpec

/-- run_max_flow_algorithm: NULL handle checks, then endpoint bounds checks,
then the capacity-kind check, each failing with -1 and no flow list; on success
the algorithm runs and the arcs with strictly positive flow are collected in
index order; an empty collection is returned as a NULL list. -/
def run_max_flow_algorithm (alg : MaxFlowAlg) :
    Option GraphWrapper → Option ArcMapWrapper → Int → Int →
    Int × Option (List (Nat × Int))
  | none, _, _, _ => (-1, none)
  | _, none, _, _ => (-1, none)
  | some g, some m, s, t =>
    if s < 0 ∨ (g.nodes : Int) ≤ s ∨ t < 0 ∨ (g.nodes : Int) ≤ t then (-1, none)
    else if m.type ≠ MapType.LONG then (-1, none)
    else
      let vf := alg g m.longVals s.toNat t.toNat
      let results := (List.range g.arcs.length).filterMap fun i =>
        if 0 < vf.2 i then some (i, vf.2 i) else none
      (vf.1, if results.isEmpty then none else some results)

/-- lemon_edmonds_karp: runs the augmenting-path algorithm through the shared
driver. -/
def lemon_edmonds_karp (g : Option GraphWrapper) (m : Option ArcMapWrapper)
    (s t : Int) : Int × Option (List (Nat × Int)) :=
  run_max_flow_algorithm edmondsKarpAlg g m s t

/-- lemon_preflow: runs the push-relabel algorithm through the shared driver. -/
def lemon_preflow (g : Option GraphWrapper) (m : Option ArcMapWrapper)
    (s t : Int) : Int × Option (List (Nat × Int)) :=
  run_max_flow_algorithm preflowAlg g m s t

/-- Entries of a returned (pointer, count) list: a NULL pointer with zero count
carries no entries. -/
def entriesOf : Option (List (Nat × Int)) → List (Nat × Int)
  | none => []
  | some l => l

/-- Depth-first search for an arc path from `u` to `t` avoiding the `visited`
nodes, with `fuel` bounding the recursion depth (any reachable node is reachable
by a simple path of fewer than `nodes` arcs).  Returns the arc-index sequence,
which is empty exactly when `u = t`. -/
def findPath (g : GraphWrapper) : Nat → List Nat → Nat → Nat → Option (List Nat)
  | fuel, visited, u, t =>
    if u = t then some []
    else match fuel with
      | 0 => none
      | fuel' + 1 =>
        (outArcs g u).findSome? fun iv =>
          if iv.2 ∈ visited then none
          else (findPath g fuel' (iv.2 :: visited) iv.2 t).map fun p => iv.1 :: p

/-- Modelled from the spec: the bodies of `lemon::Dijkstra` and
`lemon::BellmanFord` are vendored LEMON headers absent from src/.  Per §4.4
both algorithms mark `t` reached exactly when some arc path leads from the
source to `t`. -/
def spReached (g : GraphWrapper) (s t : Nat) : Bool :=
  (findPath g g.nodes [s] s t).isSome

/-- Modelled from the spec: the predecessor-link path (§4.4/§4.5) of the absent
LEMON shortest-path implementations, as an ordered arc-index sequence from
source to target, empty exactly when source = target. -/
def spPath (g : GraphWrapper) (s t : Nat) : List Nat :=
  (findPath g g.nodes [s] s t).getD []

/-- Modelled from the spec: the distance reported for a reached target, the sum
of the lengths along the returned path (§8: "the sum of lengths along a returned
path's arcs equals the reported distance"). -/
def walkLen (len : Nat → ℚ) (w : List Nat) : ℚ :=
  w.foldl (fun a i => a + len i) 0

/-- All walks (endpoint, arc-index sequence) that start at `u` and use at most
`k` arcs. -/
def walksUpTo (g : GraphWrapper) : Nat → Nat → List (Nat × List Nat)
  | u, 0 => [(u, [])]
  | u, k + 1 =>
    (u, []) ::
      ((outArcs g u).flatMap fun iv =>
        (walksUpTo g iv.2 k).map fun ew => (ew.1, iv.1 :: ew.2))

/-- Total length of a walk as an unreduced fraction (numerator, denominator):
fractions are added cross-wise without normalisation, so the denominator stays a
product of the (positive) denominators of the arc lengths. -/
def sumAcc (len : Nat → ℚ) (w : List Nat) : Int × Int :=
  w.foldl
    (fun nd i => (nd.1 * (len i).den + (len i).num * nd.2, nd.2 * (len i).den))
    (0, 1)

/-- Whether a walk's total length is negative: the unreduced numerator is
negative (the denominator is a product of positive numbers). -/
def sumNeg (len : Nat → ℚ) (w : List Nat) : Bool :=
  decide ((sumAcc len w).1 < 0)

/-- Modelled from the spec: `BellmanFord::checkedStart` is a vendored LEMON
header absent from src/.  Per §4.4 it reports failure exactly when "a
negative-weight cycle reachable from the source exists": a nonempty closed walk
of negative total length, of at most `nodes` arcs, around a node reachable from
the source. -/
def negCycleFrom (g : GraphWrapper) (len : Nat → ℚ) (s : Nat) : Bool :=
  (walksUpTo g s g.nodes).any fun vw =>
    (walksUpTo g vw.1 g.nodes).any fun ew =>
      !ew.2.isEmpty && ew.1 == vw.1 && sumNeg len ew.2

/-- ShortestPathResult struct: `distance := none` models the stored IEEE
+infinity, `path := none` a NULL `PathResult` pointer, and `path := some []` an
allocated `PathResult` with `count = 0`. -/
structure ShortestPathResult where
  reached : Bool
  negative_cycle : Bool
  distance : Option ℚ
  path : Option (List Int)

/-- Per path arc, the loop `for (i = 0; i < arcs.size(); ++i) if (arcs[i] ==
arc) { push(i); break; }`: a linear search of the arc vector for the arc handle
(arc handles are pairwise distinct, so the handle of arc `a` is found at index
`a` when in range, and nothing is pushed otherwise). -/
def lookupArcIds (g : GraphWrapper) (l : List Nat) : List Int :=
  l.filterMap fun a =>
    let r := scanFind a 0 g.arcs.length
    if r < 0 then none else some r

/-- lemon_dijkstra: NULL checks, then the length-kind check, then endpoint
bounds checks, each returning NULL; otherwise the result struct is filled from
the algorithm: `negative_cycle` is always false, and on a reached target the
distance and the id-translated path are stored, else +infinity and a NULL
path. -/
def lemon_dijkstra : Option GraphWrapper → Option ArcMapWrapper → Int → Int →
    Option ShortestPathResult
  | none, _, _, _ => none
  | _, none, _, _ => none
  | some g, some m, s, t =>
    if m.type ≠ MapType.DOUBLE then none
    else if s < 0 ∨ (g.nodes : Int) ≤ s ∨ t < 0 ∨ (g.nodes : Int) ≤ t then none
    else
      let r := spReached g s.toNat t.toNat
      some { reached := r, negative_cycle := false,
             distance := if r then some (walkLen m.doubleVals (spPath g s.toNat t.toNat)) else none,
             path := if r then some (lookupArcIds g (spPath g s.toNat t.toNat)) else none }

/-- lemon_bellman_ford: NULL checks, length-kind check, endpoint bounds checks;
then `checkedStart` decides `has_negative_cycle`, `reached` is
`!has_negative_cycle && reached(target)`, and the distance/path fields are
filled only when `reached && !has_negative_cycle`, else +infinity and NULL. -/
def lemon_bellman_ford : Option GraphWrapper → Option ArcMapWrapper → Int → Int →
    Option ShortestPathResult
  | none, _, _, _ => none
  | _, none, _, _ => none
  | some g, some m, s, t =>
    if m.type ≠ MapType.DOUBLE then none
    else if s < 0 ∨ (g.nodes : Int) ≤ s ∨ t < 0 ∨ (g.nodes : Int) ≤ t then none
    else
      let neg := negCycleFrom g m.doubleVals s.toNat
      let r := !neg && spReached g s.toNat t.toNat
      some { reached := r, negative_cycle := neg,
             distance := if r && !neg then some (walkLen m.doubleVals (spPath g s.toNat t.toNat)) else none,
             path := if r && !neg then some (lookupArcIds g (spPath g s.toNat t.toNat)) else none }

/-- Mutating operation on a graph handle, for stating persistence across later
growth of the store. -/
inductive GraphOp where
  | addNode
  | addArc (s t : Int)

/-- Effect of one mutating call on the graph handle. -/
def applyOp (g : Option GraphWrapper) : GraphOp → Option GraphWrapper
  | GraphOp.addNode => (lemon_add_node g).1
  | GraphOp.addArc s t => (lemon_add_arc g s t).1

/-- Effect of a sequence of mutating calls. -/
def applyOps (g : Option GraphWrapper) (ops : List GraphOp) : Option GraphWrapper :=
  ops.foldl applyOp g

/-- Well-formedness of a graph state: every arc endpoint is a created node.
Every state built through the API from `lemon_create_graph` satisfies this. -/
def WFGraph (g : GraphWrapper) : Prop :=
  ∀ p ∈ g.arcs, p.1 < g.nodes ∧ p.2 < g.nodes

/-- Persistence invariant for one arc: arc `a` exists, stores endpoints
`(sn, tn)`, and both endpoints are created nodes. -/
def ArcPinned (a sn tn : Nat) (g : GraphWrapper) : Prop :=
  a < g.arcs.length ∧ g.arcs.getD a (0, 0) = (sn, tn) ∧ sn < g.nodes ∧ tn < g.nodes

/-- Fixture: two nodes added to a fresh graph, no arcs yet. -/
def exTwoNodeGraph : Option GraphWrapper :=
  (lemon_add_node (lemon_add_node (some lemon_create_graph)).1).1

/-- Fixture: a LONG arc map created on `exTwoNodeGraph` while its arc count is
zero. -/
def exEarlyMap : Option ArcMapWrapper :=
  lemon_create_arc_map_long exTwoNodeGraph

/-- Fixture: `exTwoNodeGraph` after one arc 0→1 is added (after `exEarlyMap`
was created). -/
def exGrownGraph : GraphWrapper :=
  ((lemon_add_arc exTwoNodeGraph 0 1).1).getD lemon_create_graph

/-- Fixture: three nodes on a directed cycle 0→1→2→0 whose lengths sum to -1. -/
def exNegCycleGraph : GraphWrapper :=
  { nodes := 3, arcs := [(0, 1), (1, 2), (2, 0)] }

/-- Fixture: DOUBLE length map on `exNegCycleGraph` with lengths 1, 1, -3. -/
def exNegCycleMap : ArcMapWrapper :=
  { type := MapType.DOUBLE, longVals := fun _ => 0,
    doubleVals := fun i => if i = 0 then 1 else if i = 1 then 1 else -3 }

/-- Fixture: two nodes, no arcs, so node 1 is unreachable from node 0. -/
def exNoArcGraph : GraphWrapper :=
  { nodes := 2, arcs := [] }

/-- Fixture: DOUBLE map (usable as a length map on any graph). -/
def exDoubleMap : ArcMapWrapper :=
  { type := MapType.DOUBLE, longVals := fun _ => 0, doubleVals := fun _ => 1 }

/-- Fixture: LONG map with every capacity 3. -/
def exLongMap : ArcMapWrapper :=
  { type := MapType.LONG, longVals := fun _ => 3, doubleVals := fun _ => 0 }

/-- Fixture: one arc 0→1 between two nodes. -/
def exOneArcGraph : GraphWrapper :=
  { nodes := 2, arcs := [(0, 1)] }

/-- Entries of a list returned under the empty-goes-NULL convention are the
list itself. -/
theorem entriesOf_if_isEmpty (l : List (Nat × Int)) :
    entriesOf (if l.isEmpty then none else some l) = l := by
  cases l <;> simp [entriesOf]

/-- The linear search finds index `tgt` whenever the remaining iterations cover
it. -/
theorem scanFind_found (tgt : Nat) :
    ∀ rem i, i ≤ tgt → tgt < i + rem → scanFind tgt i rem = (tgt : Int) := by
  intro rem
  induction rem with
  | zero => intro i h1 h2; omega
  | succ r ih =>
    intro i h1 h2
    by_cases h : i = tgt
    · subst h; simp [scanFind]
    · simp only [scanFind, if_neg h]
      exact ih (i + 1) (by omega) (by omega)

/-- C1: for every graph, integer-kind capacity arc map and valid source and
target node ids, `lemon_edmonds_karp` and `lemon_preflow` return the same
max-flow value. -/
theorem maxflow_value_cross_algorithm_agreement (g : GraphWrapper)
    (m : ArcMapWrapper) (s t : Int) (hm : m.type = MapType.LONG)
    (hs : 0 ≤ s ∧ s < (g.nodes : Int)) (ht : 0 ≤ t ∧ t < (g.nodes : Int)) :
    (lemon_edmonds_karp (some g) (some m) s t).1 =
      (lemon_preflow (some g) (some m) s t).1 := rfl

/-- Witness for C1 on the one-arc fixture with capacity 3. -/
theorem maxflow_value_cross_algorithm_agreement_inst :
    (lemon_edmonds_karp (some exOneArcGraph) (some exLongMap) 0 1).1 =
      (lemon_preflow (some exOneArcGraph) (some exLongMap) 0 1).1 :=
  maxflow_value_cross_algorithm_agreement exOneArcGraph exLongMap 0 1 rfl
    (by decide) (by decide)

/-- C7: `lemon_add_arc` with either endpoint id out of the node range returns
-1 and leaves the graph unchanged: node count, arc count and every existing
arc's endpoints are those of the original state. -/
theorem add_arc_invalid_endpoint_no_mutation (g : GraphWrapper) (s t : Int)
    (h : ¬(0 ≤ s ∧ s < (g.nodes : Int)) ∨ ¬(0 ≤ t ∧ t < (g.nodes : Int))) :
    lemon_add_arc (some g) s t = (some g, -1) ∧
    lemon_node_count (lemon_add_arc (some g) s t).1 = lemon_node_count (some g) ∧
    lemon_arc_count (lemon_add_arc (some g) s t).1 = lemon_arc_count (some g) ∧
    ∀ a : Int,
      lemon_arc_source (lemon_add_arc (some g) s t).1 a = lemon_arc_source (some g) a ∧
      lemon_arc_target (lemon_add_arc (some g) s t).1 a = lemon_arc_target (some g) a := by
  have hc : s < 0 ∨ (g.nodes : Int) ≤ s ∨ t < 0 ∨ (g.nodes : Int) ≤ t := by omega
  have e : lemon_add_arc (some g) s t = (some g, -1) := by
    simp [lemon_add_arc, hc]
  exact ⟨e, by rw [e], by rw [e], fun a => ⟨by rw [e], by rw [e]⟩⟩

/-- Witness for C7: adding an arc to node 5 of a two-node graph fails without
mutating. -/
theorem add_arc_invalid_endpoint_no_mutation_inst :
    lemon_add_arc (some exNoArcGraph) 0 5 = (some exNoArcGraph, -1) ∧
    lemon_node_count (lemon_add_arc (some exNoArcGraph) 0 5).1 =
      lemon_node_count (some exNoArcGraph) ∧
    lemon_arc_count (lemon_add_arc (some exNoArcGraph) 0 5).1 =
      lemon_arc_count (some exNoArcGraph) ∧
    ∀ a : Int,
      lemon_arc_source (lemon_add_arc (some exNoArcGraph) 0 5).1 a =
        lemon_arc_source (some exNoArcGraph) a ∧
      lemon_arc_target (lemon_add_arc (some exNoArcGraph) 0 5).1 a =
        lemon_arc_target (some exNoArcGraph) a :=
  add_arc_invalid_endpoint_no_mutation exNoArcGraph 0 5 (by right; decide)

/-- C9 counterexample: `lemon_node_count` on a NULL handle returns 0, the very
value it returns for a successfully created empty graph, so the NULL-handle
result is not distinguishable from a successful result. -/
theorem null_handle_count_indistinguishable_cex :
    lemon_node_count none = lemon_node_count (some lemon_create_graph) ∧
    lemon_node_count none = 0 :=
  ⟨rfl, rfl⟩

/-- C9 (amended): a NULL graph or map handle never crashes and yields the
operation's failure or neutral result: -1 for id-returning calls, NULL for
handle- or struct-returning calls, -1 with no flow list for the max-flow calls,
and a silent no-op returning the kind's zero for map accessors; however
`lemon_node_count` and `lemon_arc_count` return 0 and the map getters return
the kind's zero, values that coincide with successful results on an empty graph
or a zero-valued entry. -/
theorem null_handle_behavior (s t a v : Int) (q : ℚ) (g : GraphWrapper)
    (m : Option ArcMapWrapper) :
    lemon_add_node none = (none, -1) ∧
    lemon_add_arc none s t = (none, -1) ∧
    lemon_arc_source none a = -1 ∧
    lemon_arc_target none a = -1 ∧
    lemon_node_count none = 0 ∧
    lemon_arc_count none = 0 ∧
    lemon_create_arc_map_long none = none ∧
    lemon_create_arc_map_double none = none ∧
    lemon_create_node_map_double none = none ∧
    lemon_set_arc_value_long g none a v = none ∧
    lemon_get_arc_value_long g none a = 0 ∧
    lemon_set_arc_value_double g none a q = none ∧
    lemon_get_arc_value_double g none a = 0 ∧
    lemon_set_node_value_double g none a q = none ∧
    lemon_get_node_value_double g none a = 0 ∧
    lemon_edmonds_karp none m s t = (-1, none) ∧
    lemon_edmonds_karp (some g) none s t = (-1, none) ∧
    lemon_preflow none m s t = (-1, none) ∧
    lemon_preflow (some g) none s t = (-1, none) ∧
    lemon_dijkstra none m s t = none ∧
    lemon_dijkstra (some g) none s t = none ∧
    lemon_bellman_ford none m s t = none ∧
    lemon_bellman_ford (some g) none s t = none := by
  repeat' apply And.intro
  all_goals first
    | rfl
    | (cases m <;> rfl)

/-- C10: on an id inside the current range, a get immediately after a set
returns the stored value, and a set leaves the value at every other id
unchanged, for LONG arc maps, DOUBLE arc maps and DOUBLE node maps. -/
theorem map_set_get_roundtrip_and_frame (g : GraphWrapper)
    (ml md : ArcMapWrapper) (nm : NodeMapWrapper)
    (a j n k : Int) (v : Int) (q r : ℚ)
    (hml : ml.type = MapType.LONG) (hmd : md.type = MapType.DOUBLE)
    (ha : 0 ≤ a ∧ a < (g.arcs.length : Int)) (hj : j ≠ a)
    (hn : 0 ≤ n ∧ n < (g.nodes : Int)) (hk : k ≠ n) :
    lemon_get_arc_value_long g (lemon_set_arc_value_long g (some ml) a v) a = v ∧
    lemon_get_arc_value_long g (lemon_set_arc_value_long g (some ml) a v) j =
      lemon_get_arc_value_long g (some ml) j ∧
    lemon_get_arc_value_double g (lemon_set_arc_value_double g (some md) a q) a = q ∧
    lemon_get_arc_value_double g (lemon_set_arc_value_double g (some md) a q) j =
      lemon_get_arc_value_double g (some md) j ∧
    lemon_get_node_value_double g (lemon_set_node_value_double g (some nm) n r) n = r ∧
    lemon_get_node_value_double g (lemon_set_node_value_double g (some nm) n r) k =
      lemon_get_node_value_double g (some nm) k := by
  have hab : ¬(a < 0 ∨ (g.arcs.length : Int) ≤ a) := by omega
  have hnb : ¬(n < 0 ∨ (g.nodes : Int) ≤ n) := by omega
  refine ⟨?_, ?_, ?_, ?_, ?_, ?_⟩
  · simp [lemon_set_arc_value_long, lemon_get_arc_value_long, hml, hab]
  · by_cases hjb : j < 0 ∨ (g.arcs.length : Int) ≤ j
    · simp [lemon_set_arc_value_long, lemon_get_arc_value_long, hml, hab, hjb]
    · have hne : j.toNat ≠ a.toNat := by omega
      simp [lemon_set_arc_value_long, lemon_get_arc_value_long, hml, hab, hjb, hne]
  · simp [lemon_set_arc_value_double, lemon_get_arc_value_double, hmd, hab]
  · by_cases hjb : j < 0 ∨ (g.arcs.length : Int) ≤ j
    · simp [lemon_set_arc_value_double, lemon_get_arc_value_double, hmd, hab, hjb]
    · have hne : j.toNat ≠ a.toNat := by omega
      simp [lemon_set_arc_value_double, lemon_get_arc_value_double, hmd, hab, hjb, hne]
  · simp [lemon_set_node_value_double, lemon_get_node_value_double, hnb]
  · by_cases hkb : k < 0 ∨ (g.nodes : Int) ≤ k
    · simp [lemon_set_node_value_double, lemon_get_node_value_double, hnb, hkb]
    · have hne : k.toNat ≠ n.toNat := by omega
      simp [lemon_set_node_value_double, lemon_get_node_value_double, hnb, hkb, hne]

/-- Witness for C10 on the one-arc fixture: arc id 0 versus 5, node id 0
versus 3. -/
theorem map_set_get_roundtrip_and_frame_inst :
    lemon_get_arc_value_long exOneArcGraph
      (lemon_set_arc_value_long exOneArcGraph (some exLongMap) 0 9) 0 = 9 ∧
    lemon_get_arc_value_long exOneArcGraph
      (lemon_set_arc_value_long exOneArcGraph (some exLongMap) 0 9) 5 =
      lemon_get_arc_value_long exOneArcGraph (some exLongMap) 5 ∧
    lemon_get_arc_value_double exOneArcGraph
      (lemon_set_arc_value_double exOneArcGraph (some exDoubleMap) 0 2) 0 = 2 ∧
    lemon_get_arc_value_double exOneArcGraph
      (lemon_set_arc_value_double exOneArcGraph (some exDoubleMap) 0 2) 5 =
      lemon_get_arc_value_double exOneArcGraph (some exDoubleMap) 5 ∧
    lemon_get_node_value_double exOneArcGraph
      (lemon_set_node_value_double exOneArcGraph
        (some { vals := fun _ => 0 }) 0 2) 0 = 2 ∧
    lemon_get_node_value_double exOneArcGraph
      (lemon_set_node_value_double exOneArcGraph
        (some { vals := fun _ => 0 }) 0 2) 3 =
      lemon_get_node_value_double exOneArcGraph (some { vals := fun _ => 0 }) 3 :=
  map_set_get_roundtrip_and_frame exOneArcGraph exLongMap exDoubleMap
    { vals := fun _ => 0 } 0 5 0 3 9 2 2 rfl rfl
    (by decide) (by decide) (by decide) (by decide)

/-- C5 counterexample: on a two-node graph, a LONG arc map is created while the
arc count is 0, then arc 0 is added; the id 0 is outside [0, count-at-creation)
= [0, 0), yet a set followed by a get on it stores and returns 7, not the
claimed no-op returning zero: the wrapper bounds-checks against the live count
and the native map grows with the graph. -/
theorem map_bounds_creation_time_cex :
    lemon_arc_count exTwoNodeGraph = 0 ∧
    lemon_arc_count (some exGrownGraph) = 1 ∧
    lemon_get_arc_value_long exGrownGraph
      (lemon_set_arc_value_long exGrownGraph exEarlyMap 0 7) 0 = 7 := by
  refine ⟨rfl, rfl, ?_⟩
  decide

/-- C5 (amended): set/get on an id outside [0, current count at the time of the
call) is a no-op returning the kind's zero; ids of arcs or nodes added to the
store after the map was created are within bounds once added (the native map
grows with the graph) and behave like any other id. -/
theorem map_out_of_range_noop_current_count (g : GraphWrapper)
    (m : Option ArcMapWrapper) (nm : Option NodeMapWrapper)
    (a n : Int) (v : Int) (q : ℚ)
    (ha : a < 0 ∨ (g.arcs.length : Int) ≤ a)
    (hn : n < 0 ∨ (g.nodes : Int) ≤ n) :
    lemon_set_arc_value_long g m a v = m ∧
    lemon_get_arc_value_long g m a = 0 ∧
    lemon_set_arc_value_double g m a q = m ∧
    lemon_get_arc_value_double g m a = 0 ∧
    lemon_set_node_value_double g nm n q = nm ∧
    lemon_get_node_value_double g nm n = 0 := by
  refine ⟨?_, ?_, ?_, ?_, ?_, ?_⟩
  · cases m with
    | none => rfl
    | some w => simp [lemon_set_arc_value_long, ha]
  · cases m with
    | none => rfl
    | some w => simp [lemon_get_arc_value_long, ha]
  · cases m with
    | none => rfl
    | some w => simp [lemon_set_arc_value_double, ha]
  · cases m with
    | none => rfl
    | some w => simp [lemon_get_arc_value_double, ha]
  · cases nm with
    | none => rfl
    | some w => simp [lemon_set_node_value_double, hn]
  · cases nm with
    | none => rfl
    | some w => simp [lemon_get_node_value_double, hn]

/-- Witness for the amended C5: id 5 is outside the one-arc fixture's ranges. -/
theorem map_out_of_range_noop_current_count_inst :
    lemon_set_arc_value_long exOneArcGraph (some exLongMap) 5 9 = some exLongMap ∧
    lemon_get_arc_value_long exOneArcGraph (some exLongMap) 5 = 0 ∧
    lemon_set_arc_value_double exOneArcGraph (some exLongMap) 5 2 = some exLongMap ∧
    lemon_get_arc_value_double exOneArcGraph (some exLongMap) 5 = 0 ∧
    lemon_set_node_value_double exOneArcGraph (some { vals := fun _ => 0 }) 5 2 =
      some { vals := fun _ => 0 } ∧
    lemon_get_node_value_double exOneArcGraph (some { vals := fun _ => 0 }) 5 = 0 :=
  map_out_of_range_noop_current_count exOneArcGraph (some exLongMap)
    (some { vals := fun _ => 0 }) 5 5 9 2 (by decide) (by decide)

/-- C6: with valid node ids, each max-flow wrapper fails (value -1, no flow
list) on a DOUBLE-kind capacity map, and each shortest-path wrapper fails
(NULL result) on a LONG-kind length map. -/
theorem algorithm_map_kind_mismatch_fails (g : GraphWrapper)
    (md ml : ArcMapWrapper) (s t : Int)
    (hmd : md.type = MapType.DOUBLE) (hml : ml.type = MapType.LONG)
    (hs : 0 ≤ s ∧ s < (g.nodes : Int)) (ht : 0 ≤ t ∧ t < (g.nodes : Int)) :
    lemon_edmonds_karp (some g) (some md) s t = (-1, none) ∧
    lemon_preflow (some g) (some md) s t = (-1, none) ∧
    lemon_dijkstra (some g) (some ml) s t = none ∧
    lemon_bellman_ford (some g) (some ml) s t = none := by
  have hb : ¬(s < 0 ∨ (g.nodes : Int) ≤ s ∨ t < 0 ∨ (g.nodes : Int) ≤ t) := by omega
  refine ⟨?_, ?_, ?_, ?_⟩
  · simp [lemon_edmonds_karp, run_max_flow_algorithm, hb, hmd]
  · simp [lemon_preflow, run_max_flow_algorithm, hb, hmd]
  · simp [lemon_dijkstra, hml]
  · simp [lemon_bellman_ford, hml]

/-- Witness for C6 on the one-arc fixture. -/
theorem algorithm_map_kind_mismatch_fails_inst :
    lemon_edmonds_karp (some exOneArcGraph) (some exDoubleMap) 0 1 = (-1, none) ∧
    lemon_preflow (some exOneArcGraph) (some exDoubleMap) 0 1 = (-1, none) ∧
    lemon_dijkstra (some exOneArcGraph) (some exLongMap) 0 1 = none ∧
    lemon_bellman_ford (some exOneArcGraph) (some exLongMap) 0 1 = none :=
  algorithm_map_kind_mismatch_fails exOneArcGraph exDoubleMap exLongMap 0 1
    rfl rfl (by decide) (by decide)

/-- Unfolding of `lemon_bellman_ford` on valid inputs. -/
theorem lemon_bellman_ford_valid (g : GraphWrapper) (m : ArcMapWrapper)
    (s t : Int) (hm : m.type = MapType.DOUBLE)
    (hb : ¬(s < 0 ∨ (g.nodes : Int) ≤ s ∨ t < 0 ∨ (g.nodes : Int) ≤ t)) :
    lemon_bellman_ford (some g) (some m) s t =
      some { reached := !negCycleFrom g m.doubleVals s.toNat &&
                          spReached g s.toNat t.toNat,
             negative_cycle := negCycleFrom g m.doubleVals s.toNat,
             distance := if (!negCycleFrom g m.doubleVals s.toNat &&
                               spReached g s.toNat t.toNat) &&
                             !negCycleFrom g m.doubleVals s.toNat
                         then some (walkLen m.doubleVals (spPath g s.toNat t.toNat))
                         else none,
             path := if (!negCycleFrom g m.doubleVals s.toNat &&
                           spReached g s.toNat t.toNat) &&
                         !negCycleFrom g m.doubleVals s.toNat
                     then some (lookupArcIds g (spPath g s.toNat t.toNat))
                     else none } := by
  have h1 : ¬(m.type ≠ MapType.DOUBLE) := by simp [hm]
  simp only [lemon_bellman_ford, if_neg h1, if_neg hb]

/-- Unfolding of `lemon_dijkstra` on valid inputs. -/
theorem lemon_dijkstra_valid (g : GraphWrapper) (m : ArcMapWrapper)
    (s t : Int) (hm : m.type = MapType.DOUBLE)
    (hb : ¬(s < 0 ∨ (g.nodes : Int) ≤ s ∨ t < 0 ∨ (g.nodes : Int) ≤ t)) :
    lemon_dijkstra (some g) (some m) s t =
      some { reached := spReached g s.toNat t.toNat,
             negative_cycle := false,
             distance := if spReached g s.toNat t.toNat
                         then some (walkLen m.doubleVals (spPath g s.toNat t.toNat))
                         else none,
             path := if spReached g s.toNat t.toNat
                     then some (lookupArcIds g (spPath g s.toNat t.toNat))
                     else none } := by
  have h1 : ¬(m.type ≠ MapType.DOUBLE) := by simp [hm]
  simp only [lemon_dijkstra, if_neg h1, if_neg hb]

/-- C2: for a valid call, if a negative-weight cycle reachable from the source
exists then the label-correcting wrapper reports `negative_cycle = true`,
`reached = false`, distance +infinity and no path; if no such cycle exists,
`negative_cycle = false`. -/
theorem bellman_ford_negative_cycle_reporting (g : GraphWrapper)
    (m : ArcMapWrapper) (s t : Int) (hm : m.type = MapType.DOUBLE)
    (hs : 0 ≤ s ∧ s < (g.nodes : Int)) (ht : 0 ≤ t ∧ t < (g.nodes : Int)) :
    ∃ res, lemon_bellman_ford (some g) (some m) s t = some res ∧
      (negCycleFrom g m.doubleVals s.toNat = true →
        res.negative_cycle = true ∧ res.reached = false ∧
        res.distance = none ∧ res.path = none) ∧
      (negCycleFrom g m.doubleVals s.toNat = false →
        res.negative_cycle = false) := by
  have hb : ¬(s < 0 ∨ (g.nodes : Int) ≤ s ∨ t < 0 ∨ (g.nodes : Int) ≤ t) := by
    omega
  refine ⟨_, lemon_bellman_ford_valid g m s t hm hb, ?_, ?_⟩
  · intro h
    simp [h]
  · intro h
    simp [h]

/-- Witness for C2 on the negative three-cycle fixture: the cycle is detected
and the result carries the mandated field values. -/
theorem bellman_ford_negative_cycle_reporting_inst :
    negCycleFrom exNegCycleGraph exNegCycleMap.doubleVals 0 = true ∧
    (∃ res, lemon_bellman_ford (some exNegCycleGraph) (some exNegCycleMap) 0 2 =
        some res ∧
      (negCycleFrom exNegCycleGraph exNegCycleMap.doubleVals (0 : Int).toNat = true →
        res.negative_cycle = true ∧ res.reached = false ∧
        res.distance = none ∧ res.path = none) ∧
      (negCycleFrom exNegCycleGraph exNegCycleMap.doubleVals (0 : Int).toNat = false →
        res.negative_cycle = false)) :=
  ⟨rfl,
   bellman_ford_negative_cycle_reporting exNegCycleGraph exNegCycleMap 0 2 rfl
     (by decide) (by decide)⟩

/-- C3: on a valid call, the driver's returned flow list holds an (arcId, flow)
entry exactly for the arcs whose computed flow is strictly positive, with that
flow value; zero-flow arcs are omitted.  `alg` ranges over the algorithms, so
this covers `lemon_edmonds_karp` and `lemon_preflow`. -/
theorem flow_assignment_exactly_positive_arcs (alg : MaxFlowAlg)
    (g : GraphWrapper) (m : ArcMapWrapper) (s t : Int)
    (hm : m.type = MapType.LONG)
    (hs : 0 ≤ s ∧ s < (g.nodes : Int)) (ht : 0 ≤ t ∧ t < (g.nodes : Int))
    (i : Nat) (fv : Int) :
    ((i, fv) ∈ entriesOf (run_max_flow_algorithm alg (some g) (some m) s t).2 ↔
      i < g.arcs.length ∧ 0 < (alg g m.longVals s.toNat t.toNat).2 i ∧
        fv = (alg g m.longVals s.toNat t.toNat).2 i) := by
  have hb : ¬(s < 0 ∨ (g.nodes : Int) ≤ s ∨ t < 0 ∨ (g.nodes : Int) ≤ t) := by
    omega
  have hl : ¬(m.type ≠ MapType.LONG) := by simp [hm]
  simp only [run_max_flow_algorithm, if_neg hb, if_neg hl]
  rw [entriesOf_if_isEmpty]
  simp only [List.mem_filterMap, List.mem_range]
  constructor
  · rintro ⟨j, hj, hf⟩
    by_cases h0 : 0 < (alg g m.longVals s.toNat t.toNat).2 j
    · rw [if_pos h0] at hf
      obtain ⟨h1, h2⟩ := Prod.mk.injEq .. ▸ Option.some.injEq .. ▸ hf
      subst h1
      exact ⟨hj, h0, h2.symm⟩
    · rw [if_neg h0] at hf
      exact absurd hf (Option.noConfusion)
  · rintro ⟨h1, h2, h3⟩
    exact ⟨i, h1, by rw [if_pos h2, h3]⟩

/-- Witness for C3: a constant-1 flow table on the one-arc fixture puts exactly
arc 0 with flow 1 in the returned list. -/
theorem flow_assignment_exactly_positive_arcs_inst :
    ((0, 1) ∈ entriesOf
        (run_max_flow_algorithm (fun _ _ _ _ => (1, fun _ => 1))
          (some exOneArcGraph) (some exLongMap) 0 1).2 ↔
      0 < exOneArcGraph.arcs.length ∧
        0 < ((fun (_ : GraphWrapper) (_ : Nat → Int) (_ _ : Nat) =>
              ((1 : Int), fun _ => (1 : Int))) exOneArcGraph exLongMap.longVals
              (0 : Int).toNat (1 : Int).toNat).2 0 ∧
        (1 : Int) = ((fun (_ : GraphWrapper) (_ : Nat → Int) (_ _ : Nat) =>
              ((1 : Int), fun _ => (1 : Int))) exOneArcGraph exLongMap.longVals
              (0 : Int).toNat (1 : Int).toNat).2 0) :=
  flow_assignment_exactly_positive_arcs (fun _ _ _ _ => (1, fun _ => 1))
    exOneArcGraph exLongMap 0 1 rfl (by decide) (by decide) 0 1

/-- Search from a node to itself immediately yields the empty path. -/
theorem findPath_self (g : GraphWrapper) (fuel : Nat) (visited : List Nat)
    (u : Nat) : findPath g fuel visited u u = some [] := by
  rw [findPath.eq_def]
  simp

/-- A node is reached from itself. -/
theorem spReached_self (g : GraphWrapper) (u : Nat) :
    spReached g u u = true := by
  simp [spReached, findPath_self]

/-- The path from a node to itself is empty. -/
theorem spPath_self (g : GraphWrapper) (u : Nat) : spPath g u u = [] := by
  simp [spPath, findPath_self]

/-- C4: for a valid call with no negative cycle, both shortest-path wrappers
return a non-NULL result in which an unreached target gives `reached = false`,
distance +infinity and an absent path; a reached target carries a present path;
and `source = target` carries a present zero-length path, observably distinct
from the absent path. -/
theorem shortest_path_reached_and_path_presence (g : GraphWrapper)
    (m : ArcMapWrapper) (s t : Int) (hm : m.type = MapType.DOUBLE)
    (hs : 0 ≤ s ∧ s < (g.nodes : Int)) (ht : 0 ≤ t ∧ t < (g.nodes : Int))
    (hnc : negCycleFrom g m.doubleVals s.toNat = false) :
    (∃ rd, lemon_dijkstra (some g) (some m) s t = some rd ∧
      (spReached g s.toNat t.toNat = false →
        rd.reached = false ∧ rd.distance = none ∧ rd.path = none) ∧
      (spReached g s.toNat t.toNat = true → ∃ l, rd.path = some l) ∧
      (s = t → rd.reached = true ∧ rd.path = some [] ∧ rd.path ≠ none)) ∧
    (∃ rb, lemon_bellman_ford (some g) (some m) s t = some rb ∧
      (spReached g s.toNat t.toNat = false →
        rb.reached = false ∧ rb.distance = none ∧ rb.path = none) ∧
      (spReached g s.toNat t.toNat = true → ∃ l, rb.path = some l) ∧
      (s = t → rb.reached = true ∧ rb.path = some [] ∧ rb.path ≠ none)) := by
  have hb : ¬(s < 0 ∨ (g.nodes : Int) ≤ s ∨ t < 0 ∨ (g.nodes : Int) ≤ t) := by
    omega
  constructor
  · refine ⟨_, lemon_dijkstra_valid g m s t hm hb, ?_, ?_, ?_⟩
    · intro h
      simp [h]
    · intro h
      simp [h]
    · intro h
      subst h
      simp [spReached_self, spPath_self, lookupArcIds]
  · refine ⟨_, lemon_bellman_ford_valid g m s t hm hb, ?_, ?_, ?_⟩
    · intro h
      simp [h]
    · intro h
      simp [h, hnc]
    · intro h
      subst h
      simp [spReached_self, spPath_self, lookupArcIds, hnc]

/-- Witness for C4 on the arcless two-node fixture: target 1 is unreachable
from source 0 and there is no negative cycle. -/
theorem shortest_path_reached_and_path_presence_inst :
    (∃ rd, lemon_dijkstra (some exNoArcGraph) (some exDoubleMap) 0 1 = some rd ∧
      (spReached exNoArcGraph (0 : Int).toNat (1 : Int).toNat = false →
        rd.reached = false ∧ rd.distance = none ∧ rd.path = none) ∧
      (spReached exNoArcGraph (0 : Int).toNat (1 : Int).toNat = true →
        ∃ l, rd.path = some l) ∧
      ((0 : Int) = 1 → rd.reached = true ∧ rd.path = some [] ∧ rd.path ≠ none)) ∧
    (∃ rb, lemon_bellman_ford (some exNoArcGraph) (some exDoubleMap) 0 1 = some rb ∧
      (spReached exNoArcGraph (0 : Int).toNat (1 : Int).toNat = false →
        rb.reached = false ∧ rb.distance = none ∧ rb.path = none) ∧
      (spReached exNoArcGraph (0 : Int).toNat (1 : Int).toNat = true →
        ∃ l, rb.path = some l) ∧
      ((0 : Int) = 1 → rb.reached = true ∧ rb.path = some [] ∧ rb.path ≠ none)) :=
  shortest_path_reached_and_path_presence exNoArcGraph exDoubleMap 0 1 rfl
    (by decide) (by decide) rfl

/-- One mutating call keeps the handle non-NULL and preserves an existing arc's
index, endpoints and their membership in the node range. -/
theorem arcPinned_applyOp (a sn tn : Nat) (g : GraphWrapper) (op : GraphOp)
    (h : ArcPinned a sn tn g) :
    ∃ g2, applyOp (some g) op = some g2 ∧ ArcPinned a sn tn g2 := by
  obtain ⟨h1, h2, h3, h4⟩ := h
  cases op with
  | addNode =>
    exact ⟨{ nodes := g.nodes + 1, arcs := g.arcs }, rfl, h1, h2,
      Nat.lt_succ_of_lt h3, Nat.lt_succ_of_lt h4⟩
  | addArc s t =>
    by_cases hc : s < 0 ∨ (g.nodes : Int) ≤ s ∨ t < 0 ∨ (g.nodes : Int) ≤ t
    · exact ⟨g, by simp [applyOp, lemon_add_arc, hc], h1, h2, h3, h4⟩
    · refine ⟨{ nodes := g.nodes, arcs := g.arcs ++ [(s.toNat, t.toNat)] },
        by simp [applyOp, lemon_add_arc, hc], ?_, ?_, h3, h4⟩
      · simpa using Nat.lt_succ_of_lt h1
      · rw [List.getD_append _ _ _ _ h1]
        exact h2

/-- A whole sequence of mutating calls preserves the arc invariant. -/
theorem arcPinned_applyOps (a sn tn : Nat) (ops : List GraphOp) :
    ∀ g, ArcPinned a sn tn g →
      ∃ g2, applyOps (some g) ops = some g2 ∧ ArcPinned a sn tn g2 := by
  induction ops with
  | nil => exact fun g h => ⟨g, rfl, h⟩
  | cons op rest ih =>
    intro g h
    obtain ⟨g1, e1, h1⟩ := arcPinned_applyOp a sn tn g op h
    obtain ⟨g2, e2, h2⟩ := ih g1 h1
    refine ⟨g2, ?_, h2⟩
    simpa [applyOps, e1] using e2

/-- C8: the arc id returned by a successful `lemon_add_arc (some g) s t` keeps
reporting source `s` and target `t` through `lemon_arc_source` /
`lemon_arc_target`, whatever nodes or arcs are added afterwards. -/
theorem arc_endpoints_stable_under_growth (g : GraphWrapper) (hWF : WFGraph g)
    (s t : Int) (hs : 0 ≤ s ∧ s < (g.nodes : Int)) (ht : 0 ≤ t ∧ t < (g.nodes : Int))
    (ops : List GraphOp) :
    lemon_arc_source (applyOps (lemon_add_arc (some g) s t).1 ops)
        (lemon_add_arc (some g) s t).2 = s ∧
    lemon_arc_target (applyOps (lemon_add_arc (some g) s t).1 ops)
        (lemon_add_arc (some g) s t).2 = t := by
  have hc : ¬(s < 0 ∨ (g.nodes : Int) ≤ s ∨ t < 0 ∨ (g.nodes : Int) ≤ t) := by
    omega
  have e : lemon_add_arc (some g) s t =
      (some { nodes := g.nodes, arcs := g.arcs ++ [(s.toNat, t.toNat)] },
       (g.arcs.length : Int)) := by
    simp [lemon_add_arc, hc]
  have hp : ArcPinned g.arcs.length s.toNat t.toNat
      { nodes := g.nodes, arcs := g.arcs ++ [(s.toNat, t.toNat)] } := by
    refine ⟨by simp, ?_, ?_, ?_⟩
    · rw [List.getD_append_right _ _ _ _ (Nat.le_refl _)]
      simp
    · show s.toNat < g.nodes
      omega
    · show t.toNat < g.nodes
      omega
  obtain ⟨g2, e2, hq⟩ := arcPinned_applyOps g.arcs.length s.toNat t.toNat ops _ hp
  obtain ⟨q1, q2, q3, q4⟩ := hq
  rw [e]
  simp only at e2 ⊢
  rw [e2]
  have hbound : ¬((g.arcs.length : Int) < 0 ∨
      (g2.arcs.length : Int) ≤ (g.arcs.length : Int)) := by omega
  have htn : ((g.arcs.length : Int)).toNat = g.arcs.length := by omega
  constructor
  · simp only [lemon_arc_source, if_neg hbound, htn, q2]
    rw [scanFind_found s.toNat g2.nodes 0 (Nat.zero_le _) (by omega)]
    omega
  · simp only [lemon_arc_target, if_neg hbound, htn, q2]
    rw [scanFind_found t.toNat g2.nodes 0 (Nat.zero_le _) (by omega)]
    omega

/-- Witness for C8: the arc 0→1 added to the arcless two-node fixture keeps its
endpoints after a further node and a further arc are added. -/
theorem arc_endpoints_stable_under_growth_inst :
    lemon_arc_source
        (applyOps (lemon_add_arc (some exNoArcGraph) 0 1).1
          [GraphOp.addNode, GraphOp.addArc 1 0])
        (lemon_add_arc (some exNoArcGraph) 0 1).2 = 0 ∧
    lemon_arc_target
        (applyOps (lemon_add_arc (some exNoArcGraph) 0 1).1
          [GraphOp.addNode, GraphOp.addArc 1 0])
        (lemon_add_arc (some exNoArcGraph) 0 1).2 = 1 :=
  arc_endpoints_stable_under_growth exNoArcGraph (by simp [WFGraph, exNoArcGraph])
    0 1 (by decide) (by decide) [GraphOp.addNode, GraphOp.addArc 1 0]

end LemonNet
